import Mathlib

/-!
Verification development for the stress-test harness in `src/stress_test.py`.

The harness runs an external test command in a loop (`main`, lines 39-96):
at the top of each iteration it reads the shared stop flag
(`stop_signal = {"stop": False}`, line 14, written by the keypress-listener
thread `listen_for_keypress`, lines 16-37); if the flag is still false it
increments `run_count`, invokes the command, and either continues (exit
status 0), or reports the failure and breaks (non-zero status,
`FileNotFoundError`, or any other exception).  At loop exit it prints a
summary and exits with status 1 if a failure was seen, else 0.

The embedding below is a shallow one:

* one invocation of the external command is an `InvokeResult` — either it
  completed with a return code and captured stdout/stderr text, or starting
  it raised `FileNotFoundError`, or some other exception was raised;
* the environment of a whole execution is a pair of oracles:
  `invoke : Nat → InvokeResult` gives the result of the n-th invocation
  (n = 1, 2, ...), and `stopFlag : Nat → Bool` gives the value of
  `stop_signal["stop"]` observed at the k-th top-of-loop check (k = 0 is
  the check before invocation 1).  The listener thread's write is thus a
  schedule of observed flag values; the loop itself never writes the flag;
* console output is a list of `OutEvent`s carrying the printed payloads
  (run headers, pass/fail lines, the stdout/stderr dumps, the summary);
* the unbounded `while` loop becomes a fuel-indexed recursion returning
  `none` when the fuel is exhausted (the real loop need not terminate);
  every claim is about terminating executions (`some` results).
-/

/-- Result of one synchronous invocation of the test command
(`subprocess.run(TEST_COMMAND, capture_output=True, text=True, check=False)`,
lines 61-66): either the spawned process completed with a return code and
captured output, or `subprocess.run` raised `FileNotFoundError` (command not
found), or it raised some other exception. -/
inductive InvokeResult where
  | completed (returncode : Int) (stdout stderr : String)
  | fileNotFound
  | unexpectedError (msg : String)
deriving Repr, DecidableEq

/-- Whether an invocation counts as a pass: it completed with return code 0
(line 69, `process.returncode == 0`). -/
def isPass : InvokeResult → Bool
  | .completed returncode _ _ => returncode == 0
  | .fileNotFound => false
  | .unexpectedError _ => false

/-- One line (or block) printed by `main`, with its payload carried
verbatim.  `runHeader n` is line 57; `passed` line 70; `failed` line 72;
`stdoutDump`/`stderrDump` lines 73-76 (the captured text, verbatim);
`commandNotFound`/`commandNotFoundHint` lines 81-82; `unexpected` line 86;
`startBanner`/`commandBanner` lines 47-48; `finishedBanner` line 90;
`failureDetected` line 92; `allPassed n` line 95. -/
inductive OutEvent where
  | startBanner
  | commandBanner
  | runHeader (n : Nat)
  | passed
  | failed (returncode : Int)
  | stdoutDump (s : String)
  | stderrDump (s : String)
  | commandNotFound
  | commandNotFoundHint
  | unexpected (msg : String)
  | finishedBanner
  | failureDetected
  | allPassed (n : Nat)
deriving Repr, DecidableEq

/-- State of `main` at loop exit: the final `run_count`, the final
`has_failed`, and the events printed by the loop body. -/
structure LoopResult where
  run_count : Nat
  has_failed : Bool
  events : List OutEvent
deriving Repr, DecidableEq

/-- The `while not stop_signal["stop"]` loop of `main` (lines 55-88).
`run_count` is the loop variable (starts at 0); `stopFlag k` is the flag
value observed at the check made when `run_count = k`; `invoke n` is the
result of the n-th `subprocess.run`.  Each iteration: read the flag (stop
cleanly if true), increment `run_count`, print the run header, invoke, then
either log a pass and continue, or print the failure report, set
`has_failed`, and break.  `fuel` bounds the number of checks; `none` means
the execution was not observed to terminate within the fuel. -/
def stressLoop (stopFlag : Nat → Bool) (invoke : Nat → InvokeResult) :
    Nat → Nat → Option LoopResult
  | 0, _ => none
  | fuel + 1, run_count =>
    if stopFlag run_count then
      some { run_count := run_count, has_failed := false, events := [] }
    else
      let n := run_count + 1
      match invoke n with
      | .completed returncode out err =>
        if returncode = 0 then
          match stressLoop stopFlag invoke fuel n with
          | none => none
          | some r =>
            some { r with events := .runHeader n :: .passed :: r.events }
        else
          some { run_count := n, has_failed := true,
                 events := [.runHeader n, .failed returncode,
                            .stdoutDump out, .stderrDump err] }
      | .fileNotFound =>
        some { run_count := n, has_failed := true,
               events := [.runHeader n, .commandNotFound, .commandNotFoundHint] }
      | .unexpectedError msg =>
        some { run_count := n, has_failed := true,
               events := [.runHeader n, .unexpected msg] }

/-- Observable outcome of a terminating execution of `main`: the process
exit status passed to `sys.exit`, the final `run_count` and `has_failed`,
and the full ordered console output. -/
structure MainResult where
  exitStatus : Nat
  run_count : Nat
  has_failed : Bool
  events : List OutEvent
deriving Repr, DecidableEq

/-- The whole of `main` (lines 39-96): the opening banners, the loop, the
closing summary, and the exit-status mapping `sys.exit(1)` if `has_failed`
else `sys.exit(0)` (lines 90-96). -/
def stressMain (stopFlag : Nat → Bool) (invoke : Nat → InvokeResult)
    (fuel : Nat) : Option MainResult :=
  match stressLoop stopFlag invoke fuel 0 with
  | none => none
  | some r =>
    some { exitStatus := if r.has_failed then 1 else 0,
           run_count := r.run_count,
           has_failed := r.has_failed,
           events := .startBanner :: .commandBanner :: r.events ++
             .finishedBanner ::
               (if r.has_failed then [.failureDetected]
                else [.allPassed r.run_count]) }

/-- Initial value of the shared flag: `stop_signal = {"stop": False}`
(line 14). -/
def stop_signal_init : Bool := false

/-- Environment in which the listener thread `listen_for_keypress` runs:
whether `import tty` / `import termios` succeed (they fail together, since
`tty` imports `termios`; both fail on platforms without termios, e.g.
Windows); whether putting stdin into cbreak mode succeeds
(`termios.tcgetattr` / `tty.setcbreak`, lines 26-28, raise `termios.error`
when stdin is not a terminal); and whether the fallback `input()` (line 34)
returns a line (it raises `EOFError` when stdin is exhausted or closed). -/
structure ListenerEnv where
  termiosAvailable : Bool
  rawModeOk : Bool
  inputGetsLine : Bool
deriving Repr, DecidableEq

/-- An exception escaping `listen_for_keypress` (it runs on a daemon
thread, so an escaping exception kills only the listener). -/
inductive PyError where
  | nameError
  | eofError
deriving Repr, DecidableEq

/-- Observables of one completed execution of `listen_for_keypress`
(lines 16-37). -/
structure ListenerResult where
  /-- final value of `stop_signal["stop"]` (initially `stop_signal_init`) -/
  stopFlagSet : Bool
  /-- the sequence of values assigned to `stop_signal["stop"]` by the
  listener, in order -/
  flagWrites : List Bool
  /-- whether control reached the fallback `input()` call (line 34) -/
  usedFallbackRead : Bool
  /-- whether a blocking read actually completed because of an operator
  input event (a keypress for `sys.stdin.read(1)`, a line for `input()`) -/
  operatorInputReceived : Bool
  /-- exception propagating out of the function, if any -/
  raised : Option PyError
deriving Repr, DecidableEq

/-- The listener thread body `listen_for_keypress` (lines 16-37), by cases
on the environment, following Python's exception semantics:

* `import tty` / `import termios` succeed and cbreak mode is entered: the
  raw `sys.stdin.read(1)` blocks until a key arrives; the `finally` then
  sets the flag.  No fallback, no exception.
* the imports succeed but raw mode fails (`termios.error` from
  `tcgetattr`/`setcbreak`): the `except (ImportError, termios.error)`
  clause matches and runs the fallback `input()`.  If `input()` returns a
  line, the flag is set after that operator input; if `input()` raises
  `EOFError`, the `finally` still sets the flag and the `EOFError` escapes.
* the imports fail (`ImportError`): the local name `termios` was never
  bound, so evaluating the handler's exception tuple
  `(ImportError, termios.error)` itself raises `NameError`
  (`UnboundLocalError`); the fallback `input()` is never reached, the
  `finally` sets the flag with no operator input, and the `NameError`
  escapes.

In every case the `finally` block (lines 35-37) performs exactly one write,
of `True`, to `stop_signal["stop"]`. -/
def listen_for_keypress (env : ListenerEnv) : ListenerResult :=
  if env.termiosAvailable then
    if env.rawModeOk then
      { stopFlagSet := true, flagWrites := [true], usedFallbackRead := false,
        operatorInputReceived := true, raised := none }
    else
      if env.inputGetsLine then
        { stopFlagSet := true, flagWrites := [true], usedFallbackRead := true,
          operatorInputReceived := true, raised := none }
      else
        { stopFlagSet := true, flagWrites := [true], usedFallbackRead := true,
          operatorInputReceived := false, raised := some .eofError }
  else
    { stopFlagSet := true, flagWrites := [true], usedFallbackRead := false,
      operatorInputReceived := false, raised := some .nameError }

/-- The value history of `stop_signal["stop"]`: its initial value followed
by the values written by the listener (the only writer; the main loop only
reads the flag). -/
def flagHistory (env : ListenerEnv) : List Bool :=
  stop_signal_init :: (listen_for_keypress env).flagWrites

/-- How the shared flag of line 14 is realised in the source:
`stop_signal = {"stop": False}` is a plain module-level `dict`, mutated by
the listener thread (line 36) and read by the main loop (line 55) with no
`threading.Lock`, no `threading.Event`, and no atomic wrapper anywhere in
the file. -/
inductive SyncMechanism where
  | plainSharedVar
  | mutexGuarded
  | atomicFlag
deriving Repr, DecidableEq

/-- The mechanism the source actually uses for `stop_signal` (line 14): a
plain shared variable. -/
def stop_signal_mechanism : SyncMechanism := .plainSharedVar

/-- The events printed by `n` consecutive passing runs whose sequence
numbers start at `s`: run header, then the PASSED line, for each run. -/
def passEvents : Nat → Nat → List OutEvent
  | _, 0 => []
  | s, n + 1 => .runHeader s :: .passed :: passEvents (s + 1) n

/-- The `n` consecutive naturals starting at `s`. -/
def seqFrom : Nat → Nat → List Nat
  | _, 0 => []
  | s, n + 1 => s :: seqFrom (s + 1) n

/-- The sequence numbers of the run headers in a list of output events, in
print order. -/
def runHeaders : List OutEvent → List Nat
  | [] => []
  | .runHeader n :: es => n :: runHeaders es
  | _ :: es => runHeaders es

-- Sanity checks of the embedding on concrete inputs.
example :
    stressMain (fun k => decide (2 ≤ k)) (fun _ => .completed 0 "o" "e") 5 =
      some { exitStatus := 0, run_count := 2, has_failed := false,
             events := [.startBanner, .commandBanner,
                        .runHeader 1, .passed, .runHeader 2, .passed,
                        .finishedBanner, .allPassed 2] } := by decide

example :
    stressMain (fun _ => false)
      (fun n => if n < 3 then .completed 0 "" ""
                else .completed 7 "boom" "bang") 9 =
      some { exitStatus := 1, run_count := 3, has_failed := true,
             events := [.startBanner, .commandBanner,
                        .runHeader 1, .passed, .runHeader 2, .passed,
                        .runHeader 3, .failed 7,
                        .stdoutDump "boom", .stderrDump "bang",
                        .finishedBanner, .failureDetected] } := by decide

example :
    stressMain (fun _ => false) (fun _ => .fileNotFound) 4 =
      some { exitStatus := 1, run_count := 1, has_failed := true,
             events := [.startBanner, .commandBanner,
                        .runHeader 1, .commandNotFound, .commandNotFoundHint,
                        .finishedBanner, .failureDetected] } := by decide

example : stressMain (fun _ => false) (fun _ => .completed 0 "" "") 4 = none := by
  decide

/-! ### Helper lemmas about the loop -/

theorem runHeaders_append (xs ys : List OutEvent) :
    runHeaders (xs ++ ys) = runHeaders xs ++ runHeaders ys := by
  induction xs with
  | nil => simp [runHeaders]
  | cons e es ih => cases e <;> simp [runHeaders, ih]

/-- Exhausted fuel is the only way to get `none`. -/
theorem stressLoop_zero (stopFlag : Nat → Bool) (invoke : Nat → InvokeResult)
    (c : Nat) : stressLoop stopFlag invoke 0 c = none := rfl

/-- Inversion principle for a terminating loop execution started at
`run_count = c`: the final count is at least `c`; every flag check before
the final count read `false`; on failure the last invocation performed is
the failing one; on clean stop the flag read `true` at the final check and
every invocation performed passed; every invocation strictly before the
last passed; and the run headers printed are exactly the sequence numbers
`c+1, c+2, ..., run_count`, each once, in order. -/
theorem stressLoop_spec (stopFlag : Nat → Bool) (invoke : Nat → InvokeResult) :
    ∀ (fuel c : Nat) (r : LoopResult),
      stressLoop stopFlag invoke fuel c = some r →
      c ≤ r.run_count ∧
      (∀ k, c ≤ k → k < r.run_count → stopFlag k = false) ∧
      (r.has_failed = true →
        c < r.run_count ∧ isPass (invoke r.run_count) = false) ∧
      (r.has_failed = false →
        stopFlag r.run_count = true ∧
        ∀ i, c < i → i ≤ r.run_count → isPass (invoke i) = true) ∧
      (∀ i, c < i → i < r.run_count → isPass (invoke i) = true) ∧
      runHeaders r.events = seqFrom (c + 1) (r.run_count - c) := by
  intro fuel
  induction fuel with
  | zero => intro c r h; simp [stressLoop] at h
  | succ fuel ih =>
    intro c r h
    simp only [stressLoop] at h
    split at h
    case isTrue hf =>
      have hlit := Option.some.inj h
      have hrc : r.run_count = c := by rw [← hlit]
      have hhf : r.has_failed = false := by rw [← hlit]
      have hev : r.events = [] := by rw [← hlit]
      refine ⟨by omega, ?_, ?_, ?_, ?_, ?_⟩
      · intro k hk hk'; omega
      · intro hfail; rw [hhf] at hfail; simp at hfail
      · intro _
        rw [hrc]
        exact ⟨hf, by intro i hi hi'; omega⟩
      · intro i hi hi'; omega
      · rw [hev, hrc]
        have h1 : c - c = 0 := by omega
        rw [h1]
        rfl
    case isFalse hf =>
      have hfc : stopFlag c = false := by simpa using hf
      split at h
      case h_1 returncode out err hinv =>
        split at h
        case isTrue hrc0 =>
          subst hrc0
          split at h
          case h_1 hrec => simp at h
          case h_2 r' hrec =>
            have hlit := Option.some.inj h
            have hrc : r.run_count = r'.run_count := by rw [← hlit]
            have hhf : r.has_failed = r'.has_failed := by rw [← hlit]
            have hev : r.events =
                OutEvent.runHeader (c + 1) :: OutEvent.passed :: r'.events := by
              rw [← hlit]
            obtain ⟨ih1, ih2, ih3, ih4, ih5, ih6⟩ := ih (c + 1) r' hrec
            have hpass1 : isPass (invoke (c + 1)) = true := by
              simp [isPass, hinv]
            refine ⟨by omega, ?_, ?_, ?_, ?_, ?_⟩
            · intro k hk hk'
              rcases Nat.eq_or_lt_of_le hk with rfl | hk2
              · exact hfc
              · exact ih2 k (by omega) (by omega)
            · intro hfail
              rw [hhf] at hfail
              obtain ⟨h1, h2⟩ := ih3 hfail
              rw [hrc]
              exact ⟨by omega, h2⟩
            · intro hclean
              rw [hhf] at hclean
              obtain ⟨h1, h2⟩ := ih4 hclean
              rw [hrc]
              refine ⟨h1, ?_⟩
              intro i hi hi'
              rcases Nat.eq_or_lt_of_le (Nat.succ_le_of_lt hi) with rfl | hi2
              · exact hpass1
              · exact h2 i hi2 hi'
            · intro i hi hi'
              rw [hrc] at hi'
              rcases Nat.eq_or_lt_of_le (Nat.succ_le_of_lt hi) with rfl | hi2
              · exact hpass1
              · exact ih5 i hi2 hi'
            · have hle : c + 1 ≤ r'.run_count := ih1
              have hsub : r'.run_count - c = (r'.run_count - (c + 1)) + 1 := by
                omega
              rw [hev, hrc, hsub]
              have hrh : runHeaders
                  (OutEvent.runHeader (c + 1) :: OutEvent.passed :: r'.events)
                  = (c + 1) :: runHeaders r'.events := rfl
              rw [hrh, ih6]
              rfl
        case isFalse hrc0 =>
          have hlit := Option.some.inj h
          have hrc : r.run_count = c + 1 := by rw [← hlit]
          have hhf : r.has_failed = true := by rw [← hlit]
          have hev : r.events = [OutEvent.runHeader (c + 1),
              OutEvent.failed returncode, OutEvent.stdoutDump out,
              OutEvent.stderrDump err] := by rw [← hlit]
          refine ⟨by omega, ?_, ?_, ?_, ?_, ?_⟩
          · intro k hk hk'
            have hk2 : k = c := by omega
            rw [hk2]; exact hfc
          · intro _
            rw [hrc, hinv]
            exact ⟨by omega, by simp [isPass, hrc0]⟩
          · intro hclean; rw [hhf] at hclean; simp at hclean
          · intro i hi hi'; omega
          · rw [hev, hrc]
            have h1 : c + 1 - c = 1 := by omega
            rw [h1]
            rfl
      case h_2 hinv =>
        have hlit := Option.some.inj h
        have hrc : r.run_count = c + 1 := by rw [← hlit]
        have hhf : r.has_failed = true := by rw [← hlit]
        have hev : r.events = [OutEvent.runHeader (c + 1),
            OutEvent.commandNotFound, OutEvent.commandNotFoundHint] := by
          rw [← hlit]
        refine ⟨by omega, ?_, ?_, ?_, ?_, ?_⟩
        · intro k hk hk'
          have hk2 : k = c := by omega
          rw [hk2]; exact hfc
        · intro _
          rw [hrc, hinv]
          exact ⟨by omega, by simp [isPass]⟩
        · intro hclean; rw [hhf] at hclean; simp at hclean
        · intro i hi hi'; omega
        · rw [hev, hrc]
          have h1 : c + 1 - c = 1 := by omega
          rw [h1]
          rfl
      case h_3 msg hinv =>
        have hlit := Option.some.inj h
        have hrc : r.run_count = c + 1 := by rw [← hlit]
        have hhf : r.has_failed = true := by rw [← hlit]
        have hev : r.events = [OutEvent.runHeader (c + 1),
            OutEvent.unexpected msg] := by rw [← hlit]
        refine ⟨by omega, ?_, ?_, ?_, ?_, ?_⟩
        · intro k hk hk'
          have hk2 : k = c := by omega
          rw [hk2]; exact hfc
        · intro _
          rw [hrc, hinv]
          exact ⟨by omega, by simp [isPass]⟩
        · intro hclean; rw [hhf] at hclean; simp at hclean
        · intro i hi hi'; omega
        · rw [hev, hrc]
          have h1 : c + 1 - c = 1 := by omega
          rw [h1]
          rfl

/-- Frame property of the loop: only the flag values at checks
`c, ..., run_count` are ever consulted.  Any flag schedule agreeing with
the original on those checks yields the identical terminating result — in
particular, a flag transition happening while an invocation is in flight
(i.e. at positions the loop has not yet read) cannot change how that
invocation's result is processed. -/
theorem stressLoop_frame (stopFlag stopFlag' : Nat → Bool)
    (invoke : Nat → InvokeResult) :
    ∀ (fuel c : Nat) (r : LoopResult),
      stressLoop stopFlag invoke fuel c = some r →
      (∀ k, c ≤ k → k ≤ r.run_count → stopFlag' k = stopFlag k) →
      stressLoop stopFlag' invoke fuel c = some r := by
  intro fuel
  induction fuel with
  | zero => intro c r h _; simp [stressLoop] at h
  | succ fuel ih =>
    intro c r h hagree
    have hcle : c ≤ r.run_count := (stressLoop_spec stopFlag invoke (fuel + 1) c r h).1
    simp only [stressLoop] at h ⊢
    split at h
    case isTrue hf =>
      have hlit := Option.some.inj h
      have hrc : r.run_count = c := by rw [← hlit]
      have hsf' : stopFlag' c = true := by
        rw [hagree c (le_refl c) (by omega)]; exact hf
      rw [if_pos hsf']
      exact h
    case isFalse hf =>
      have hfc : stopFlag c = false := by simpa using hf
      have hfc' : stopFlag' c = false := by
        rw [hagree c (le_refl c) hcle]; exact hfc
      rw [if_neg (by simp [hfc'])]
      split at h
      case h_1 returncode out err hinv =>
        split at h
        case isTrue hrc0 =>
          rw [if_pos hrc0]
          split at h
          case h_1 hrec => simp at h
          case h_2 r' hrec =>
            have hlit := Option.some.inj h
            have hrcr : r.run_count = r'.run_count := by rw [← hlit]
            have hrec' : stressLoop stopFlag' invoke fuel (c + 1) = some r' := by
              refine ih (c + 1) r' hrec ?_
              intro k hk hk'
              exact hagree k (by omega) (by omega)
            rw [hrec']
            exact h
        case isFalse hrc0 =>
          rw [if_neg hrc0]
          exact h
      case h_2 hinv =>
        exact h
      case h_3 msg hinv =>
        exact h

/-- Running the loop from `run_count = c` through `n` passing iterations
(the flag reading `false` at each of the `n` checks) only prepends the `n`
pass reports to whatever the loop does from `run_count = c + n`. -/
theorem stressLoop_skip (stopFlag : Nat → Bool) (invoke : Nat → InvokeResult) :
    ∀ (n c fuel : Nat),
      (∀ k, k < n → stopFlag (c + k) = false) →
      (∀ i, i < n → isPass (invoke (c + i + 1)) = true) →
      stressLoop stopFlag invoke (n + fuel) c =
        (stressLoop stopFlag invoke fuel (c + n)).map
          (fun r => { r with events := passEvents (c + 1) n ++ r.events }) := by
  intro n
  induction n with
  | zero =>
    intro c fuel _ _
    rw [Nat.zero_add, Nat.add_zero]
    cases hx : stressLoop stopFlag invoke fuel c <;> simp [passEvents, hx]
  | succ n ihn =>
    intro c fuel hflags hpass
    have hf0 : stopFlag c = false := by
      have h0 := hflags 0 (Nat.succ_pos n)
      simpa using h0
    have hp0 : isPass (invoke (c + 1)) = true := by
      have h0 := hpass 0 (Nat.succ_pos n)
      simpa using h0
    have hfuel : n + 1 + fuel = (n + fuel) + 1 := by omega
    rw [hfuel]
    cases hinv : invoke (c + 1) with
    | completed rc out err =>
      rw [hinv] at hp0
      simp only [isPass, beq_iff_eq] at hp0
      subst hp0
      have hflags' : ∀ k, k < n → stopFlag (c + 1 + k) = false := by
        intro k hk
        have hh := hflags (k + 1) (by omega)
        rw [show c + (k + 1) = c + 1 + k by omega] at hh
        exact hh
      have hpass' : ∀ i, i < n → isPass (invoke (c + 1 + i + 1)) = true := by
        intro i hi
        have hh := hpass (i + 1) (by omega)
        rw [show c + (i + 1) + 1 = c + 1 + i + 1 by omega] at hh
        exact hh
      have hrec := ihn (c + 1) fuel hflags' hpass'
      have hcc : c + 1 + n = c + (n + 1) := by omega
      rw [hcc] at hrec
      simp only [stressLoop, hf0, Bool.false_eq_true, if_false, hinv,
        if_pos rfl, hrec]
      cases hx : stressLoop stopFlag invoke fuel (c + (n + 1)) <;>
        simp [passEvents]
    | fileNotFound =>
      rw [hinv] at hp0
      simp [isPass] at hp0
    | unexpectedError msg =>
      rw [hinv] at hp0
      simp [isPass] at hp0

/-- A terminating `stressMain` execution is a terminating loop execution
from `run_count = 0` wrapped in the banners, the summary, and the
exit-status mapping. -/
theorem stressMain_inv (stopFlag : Nat → Bool) (invoke : Nat → InvokeResult)
    (fuel : Nat) (m : MainResult)
    (h : stressMain stopFlag invoke fuel = some m) :
    ∃ r : LoopResult, stressLoop stopFlag invoke fuel 0 = some r ∧
      m = { exitStatus := if r.has_failed then 1 else 0,
            run_count := r.run_count,
            has_failed := r.has_failed,
            events := OutEvent.startBanner :: OutEvent.commandBanner ::
              r.events ++ OutEvent.finishedBanner ::
                (if r.has_failed then [OutEvent.failureDetected]
                 else [OutEvent.allPassed r.run_count]) } := by
  unfold stressMain at h
  split at h
  case h_1 => simp at h
  case h_2 r hrec =>
    exact ⟨r, hrec, (Option.some.inj h).symm⟩

/-- The opening banners and the closing summary contain no run header. -/
theorem runHeaders_banners (evs tail : List OutEvent) :
    runHeaders (OutEvent.startBanner :: OutEvent.commandBanner :: evs ++
      OutEvent.finishedBanner :: tail) =
      runHeaders evs ++ runHeaders tail := by
  simp [runHeaders, runHeaders_append]

/-! ### Claims -/

/-- C1: for every N ≥ 0, if the first N invocations all return exit status
0 and the stop flag reads true at the top-of-loop check before invocation
N+1 (having read false at the N earlier checks), then `main` terminates
with process exit status 0, `run_count = N`, and the final summary reports
exactly N passed runs (`allPassed N`), with the full output being the
banners, the N pass reports, and the clean summary. -/
theorem claim_C1 (N : Nat) (stopFlag : Nat → Bool) (invoke : Nat → InvokeResult)
    (fuel : Nat) (hfuel : N + 1 ≤ fuel)
    (hflags : ∀ k, k < N → stopFlag k = false)
    (hstop : stopFlag N = true)
    (hpass : ∀ i, i < N → isPass (invoke (i + 1)) = true) :
    stressMain stopFlag invoke fuel = some
      { exitStatus := 0, run_count := N, has_failed := false,
        events := OutEvent.startBanner :: OutEvent.commandBanner ::
          passEvents 1 N ++ [OutEvent.finishedBanner, OutEvent.allPassed N] } := by
  have hflags0 : ∀ k, k < N → stopFlag (0 + k) = false := by
    intro k hk; rw [Nat.zero_add]; exact hflags k hk
  have hpass0 : ∀ i, i < N → isPass (invoke (0 + i + 1)) = true := by
    intro i hi; rw [Nat.zero_add]; exact hpass i hi
  have hskip := stressLoop_skip stopFlag invoke N 0 (fuel - N) hflags0 hpass0
  rw [show N + (fuel - N) = fuel by omega] at hskip
  obtain ⟨f, hf⟩ : ∃ f, fuel - N = f + 1 := ⟨fuel - N - 1, by omega⟩
  have hstopstep : stressLoop stopFlag invoke (fuel - N) (0 + N) =
      some ⟨N, false, []⟩ := by
    rw [hf, Nat.zero_add]
    simp only [stressLoop]
    rw [if_pos hstop]
  rw [hstopstep] at hskip
  simp only [Option.map_some', List.append_nil, Nat.zero_add] at hskip
  unfold stressMain
  rw [hskip]
  rfl

/-- C2: for every N ≥ 0, if the first N invocations return exit status 0,
the flag reads false at all N+1 checks made, and invocation N+1 completes
with a non-zero status S, then the loop performs exactly N+1 invocations
(`run_count = N + 1`), the process exits with status 1, and the failure
report carries sequence number N+1, exit status S, and exactly the stdout
and stderr captured from invocation N+1, verbatim. -/
theorem claim_C2 (N : Nat) (stopFlag : Nat → Bool) (invoke : Nat → InvokeResult)
    (fuel : Nat) (S : Int) (out err : String)
    (hfuel : N + 1 ≤ fuel)
    (hflags : ∀ k, k ≤ N → stopFlag k = false)
    (hpass : ∀ i, i < N → isPass (invoke (i + 1)) = true)
    (hfail : invoke (N + 1) = InvokeResult.completed S out err)
    (hS : S ≠ 0) :
    stressMain stopFlag invoke fuel = some
      { exitStatus := 1, run_count := N + 1, has_failed := true,
        events := OutEvent.startBanner :: OutEvent.commandBanner ::
          (passEvents 1 N ++ [OutEvent.runHeader (N + 1), OutEvent.failed S,
            OutEvent.stdoutDump out, OutEvent.stderrDump err]) ++
          [OutEvent.finishedBanner, OutEvent.failureDetected] } := by
  have hflags0 : ∀ k, k < N → stopFlag (0 + k) = false := by
    intro k hk; rw [Nat.zero_add]; exact hflags k (le_of_lt hk)
  have hpass0 : ∀ i, i < N → isPass (invoke (0 + i + 1)) = true := by
    intro i hi; rw [Nat.zero_add]; exact hpass i hi
  have hskip := stressLoop_skip stopFlag invoke N 0 (fuel - N) hflags0 hpass0
  rw [show N + (fuel - N) = fuel by omega] at hskip
  obtain ⟨f, hf⟩ : ∃ f, fuel - N = f + 1 := ⟨fuel - N - 1, by omega⟩
  have hfailstep : stressLoop stopFlag invoke (fuel - N) (0 + N) = some
      ⟨N + 1, true, [OutEvent.runHeader (N + 1), OutEvent.failed S,
        OutEvent.stdoutDump out, OutEvent.stderrDump err]⟩ := by
    rw [hf, Nat.zero_add]
    simp only [stressLoop, hfail]
    rw [if_neg (by simp [hflags N le_rfl]), if_neg hS]
  rw [hfailstep] at hskip
  simp only [Option.map_some', Nat.zero_add] at hskip
  unfold stressMain
  rw [hskip]
  rfl

/-- Whether an event is one of the captured-output dumps printed on
failure (the stdout/stderr blocks of lines 73-76). -/
def isOutputDump : OutEvent → Bool
  | .stdoutDump _ => true
  | .stderrDump _ => true
  | _ => false

/-- C5: if the test command cannot be started (`subprocess.run` raises
`FileNotFoundError` on the first invocation attempt) and no stop was
requested before it, then the loop records exactly one invocation attempt
(`run_count = 1`, within the claim's "zero or one recorded attempt"), the
command-not-found error is reported exactly once, no captured
stdout/stderr dump is shown, and the process exits with status 1. -/
theorem claim_C5 (stopFlag : Nat → Bool) (invoke : Nat → InvokeResult)
    (fuel : Nat) (hfuel : 1 ≤ fuel) (hflag : stopFlag 0 = false)
    (hnf : invoke 1 = InvokeResult.fileNotFound) :
    stressMain stopFlag invoke fuel = some
      { exitStatus := 1, run_count := 1, has_failed := true,
        events := [OutEvent.startBanner, OutEvent.commandBanner,
          OutEvent.runHeader 1, OutEvent.commandNotFound,
          OutEvent.commandNotFoundHint, OutEvent.finishedBanner,
          OutEvent.failureDetected] } ∧
    (1 : Nat) ≤ 1 ∧
    List.count OutEvent.commandNotFound
      [OutEvent.startBanner, OutEvent.commandBanner,
        OutEvent.runHeader 1, OutEvent.commandNotFound,
        OutEvent.commandNotFoundHint, OutEvent.finishedBanner,
        OutEvent.failureDetected] = 1 ∧
    List.countP isOutputDump
      [OutEvent.startBanner, OutEvent.commandBanner,
        OutEvent.runHeader 1, OutEvent.commandNotFound,
        OutEvent.commandNotFoundHint, OutEvent.finishedBanner,
        OutEvent.failureDetected] = 0 := by
  obtain ⟨f, hf⟩ : ∃ f, fuel = f + 1 := ⟨fuel - 1, by omega⟩
  refine ⟨?_, by omega, by decide, by decide⟩
  have hstep : stressLoop stopFlag invoke fuel 0 = some
      ⟨1, true, [OutEvent.runHeader 1, OutEvent.commandNotFound,
        OutEvent.commandNotFoundHint]⟩ := by
    rw [hf]
    simp only [stressLoop, hnf]
    rw [if_neg (by simp [hflag])]
  unfold stressMain
  rw [hstep]
  rfl

/-- C3: in every terminating execution, the process exit status is 0 or 1
and nothing else; it is 0 exactly when `has_failed` is false, and
`has_failed` is false exactly when the loop stopped cleanly (the flag read
true at the final check) with every completed invocation successful — the
`AllPassed` outcome.  Every other terminating case (non-zero run,
command-not-found, unexpected error) exits with status 1. -/
theorem claim_C3 (stopFlag : Nat → Bool) (invoke : Nat → InvokeResult)
    (fuel : Nat) (m : MainResult)
    (h : stressMain stopFlag invoke fuel = some m) :
    (m.exitStatus = 0 ∨ m.exitStatus = 1) ∧
    (m.exitStatus = 0 ↔ m.has_failed = false) ∧
    (m.has_failed = false ↔
      (stopFlag m.run_count = true ∧
       ∀ i, 0 < i → i ≤ m.run_count → isPass (invoke i) = true)) := by
  obtain ⟨r, hrec, hm⟩ := stressMain_inv stopFlag invoke fuel m h
  obtain ⟨s1, s2, s3, s4, s5, s6⟩ := stressLoop_spec stopFlag invoke fuel 0 r hrec
  have hmex : m.exitStatus = if r.has_failed then 1 else 0 := by rw [hm]
  have hmrc : m.run_count = r.run_count := by rw [hm]
  have hmhf : m.has_failed = r.has_failed := by rw [hm]
  refine ⟨?_, ?_, ?_⟩
  · rw [hmex]; cases r.has_failed <;> simp
  · rw [hmex, hmhf]; cases r.has_failed <;> simp
  · rw [hmhf, hmrc]
    constructor
    · intro hcl
      exact s4 hcl
    · rintro ⟨t1, t2⟩
      by_contra hne
      have hfl : r.has_failed = true := by
        revert hne; cases r.has_failed <;> simp
      obtain ⟨u1, u2⟩ := s3 hfl
      have hp := t2 r.run_count u1 le_rfl
      rw [hp] at u2
      simp at u2

/-- C6: (a) the Controller starts no new invocation once the flag is true:
in any terminating execution, if the flag read true at check k then at
most k invocations were ever started (`run_count ≤ k`); (b) cancellation
never aborts or alters the processing of an in-flight invocation: the flag
is consulted only at the top of each iteration, so any flag schedule that
agrees with the original on the checks actually performed (positions `0`
to `run_count`) — in particular one where a stop request lands during or
after the final invocation — yields the identical result, failure
reporting and termination included. -/
theorem claim_C6 (stopFlag : Nat → Bool) (invoke : Nat → InvokeResult)
    (fuel : Nat) (m : MainResult)
    (h : stressMain stopFlag invoke fuel = some m) :
    (∀ k, stopFlag k = true → m.run_count ≤ k) ∧
    (∀ stopFlag' : Nat → Bool,
      (∀ k, k ≤ m.run_count → stopFlag' k = stopFlag k) →
      stressMain stopFlag' invoke fuel = some m) := by
  obtain ⟨r, hrec, hm⟩ := stressMain_inv stopFlag invoke fuel m h
  obtain ⟨s1, s2, s3, s4, s5, s6⟩ := stressLoop_spec stopFlag invoke fuel 0 r hrec
  have hmrc : m.run_count = r.run_count := by rw [hm]
  constructor
  · intro k hk
    rw [hmrc]
    by_contra hlt
    push_neg at hlt
    have hfalse := s2 k (Nat.zero_le k) hlt
    rw [hk] at hfalse
    simp at hfalse
  · intro stopFlag' hag
    have hrec' : stressLoop stopFlag' invoke fuel 0 = some r := by
      refine stressLoop_frame stopFlag stopFlag' invoke fuel 0 r hrec ?_
      intro k _ hk'
      exact hag k (by rw [hmrc]; exact hk')
    unfold stressMain
    rw [hrec', hm]

/-- C7: the loop is fail-fast.  In any terminating execution the run
headers are exactly `1, 2, ..., run_count` — each invocation is attempted
exactly once, in order, never retried; every invocation before the last
one passed (so no invocation is ever started after a failing one); and if
the execution failed, the last invocation performed is the one that failed
(non-zero status, command-not-found, or unexpected error) and it
immediately ended the loop. -/
theorem claim_C7 (stopFlag : Nat → Bool) (invoke : Nat → InvokeResult)
    (fuel : Nat) (m : MainResult)
    (h : stressMain stopFlag invoke fuel = some m) :
    runHeaders m.events = seqFrom 1 m.run_count ∧
    (∀ i, 0 < i → i < m.run_count → isPass (invoke i) = true) ∧
    (m.has_failed = true →
      0 < m.run_count ∧ isPass (invoke m.run_count) = false) := by
  obtain ⟨r, hrec, hm⟩ := stressMain_inv stopFlag invoke fuel m h
  obtain ⟨s1, s2, s3, s4, s5, s6⟩ := stressLoop_spec stopFlag invoke fuel 0 r hrec
  have hmrc : m.run_count = r.run_count := by rw [hm]
  have hmhf : m.has_failed = r.has_failed := by rw [hm]
  have hmev : m.events = OutEvent.startBanner :: OutEvent.commandBanner ::
      r.events ++ OutEvent.finishedBanner ::
        (if r.has_failed then [OutEvent.failureDetected]
         else [OutEvent.allPassed r.run_count]) := by rw [hm]
  refine ⟨?_, ?_, ?_⟩
  · rw [hmev, hmrc, runHeaders_banners]
    have htail : runHeaders
        (if r.has_failed then [OutEvent.failureDetected]
         else [OutEvent.allPassed r.run_count]) = [] := by
      cases r.has_failed <;> simp [runHeaders]
    rw [htail, List.append_nil]
    simpa using s6
  · intro i hi hi'
    rw [hmrc] at hi'
    exact s5 i hi hi'
  · intro hfl
    rw [hmhf] at hfl
    rw [hmrc]
    exact s3 hfl

/-- C9: failure takes precedence over cancellation.  If any invocation
actually performed (`1 ≤ i ≤ run_count`) did not pass, the process exits
with status 1 — whatever the stop-flag schedule was: the flag is read only
at the top of each iteration, so a stop request arriving before or during
the failing invocation cannot turn the outcome into the clean exit 0. -/
theorem claim_C9 (stopFlag : Nat → Bool) (invoke : Nat → InvokeResult)
    (fuel : Nat) (m : MainResult)
    (h : stressMain stopFlag invoke fuel = some m)
    (i : Nat) (hi : 0 < i) (hile : i ≤ m.run_count)
    (hfaili : isPass (invoke i) = false) :
    m.exitStatus = 1 := by
  obtain ⟨r, hrec, hm⟩ := stressMain_inv stopFlag invoke fuel m h
  obtain ⟨s1, s2, s3, s4, s5, s6⟩ := stressLoop_spec stopFlag invoke fuel 0 r hrec
  have hmrc : m.run_count = r.run_count := by rw [hm]
  have hmex : m.exitStatus = if r.has_failed then 1 else 0 := by rw [hm]
  rw [hmex]
  cases hcase : r.has_failed
  · exfalso
    obtain ⟨t1, t2⟩ := s4 hcase
    have hp := t2 i hi (by rw [hmrc] at hile; exact hile)
    rw [hp] at hfaili
    simp at hfaili
  · simp

/-- C8: the shared flag `stop_signal["stop"]` starts false and is written
exactly once, by the listener (the loop only reads it), transitioning
false→true and never back: in every completed listener execution the value
history is `[false, true]`.  And in every terminating loop execution the
recorded sequence numbers are the positive integers `1, 2, ...,
run_count`, increasing by exactly 1 per invocation. -/
theorem claim_C8 :
    (∀ env : ListenerEnv, flagHistory env = [false, true]) ∧
    (∀ (stopFlag : Nat → Bool) (invoke : Nat → InvokeResult)
       (fuel : Nat) (m : MainResult),
      stressMain stopFlag invoke fuel = some m →
      runHeaders m.events = seqFrom 1 m.run_count) := by
  constructor
  · rintro ⟨t, rm, il⟩
    cases t <;> cases rm <;> cases il <;> rfl
  · intro stopFlag invoke fuel m h
    obtain ⟨r, hrec, hm⟩ := stressMain_inv stopFlag invoke fuel m h
    obtain ⟨s1, s2, s3, s4, s5, s6⟩ := stressLoop_spec stopFlag invoke fuel 0 r hrec
    have hmrc : m.run_count = r.run_count := by rw [hm]
    have hmev : m.events = OutEvent.startBanner :: OutEvent.commandBanner ::
        r.events ++ OutEvent.finishedBanner ::
          (if r.has_failed then [OutEvent.failureDetected]
           else [OutEvent.allPassed r.run_count]) := by rw [hm]
    rw [hmev, hmrc, runHeaders_banners]
    have htail : runHeaders
        (if r.has_failed then [OutEvent.failureDetected]
         else [OutEvent.allPassed r.run_count]) = [] := by
      cases r.has_failed <;> simp [runHeaders]
    rw [htail, List.append_nil]
    simpa using s6

/-- C4, counterexample: in the environment where importing `tty` and
`termios` fails (the claim's "interactive raw input unavailable" case,
e.g. Windows), the listener does NOT reach the fallback line-based read —
evaluating the handler's exception tuple raises `NameError` instead — and
the stop flag is nevertheless set to true by the `finally` block although
no operator input event was ever received.  This refutes both halves of
the claim: the fallback is not taken, and the flag transition is a
consequence of the error handling, not of operator input. -/
theorem claim_C4_cex :
    (listen_for_keypress
      { termiosAvailable := false, rawModeOk := true,
        inputGetsLine := true }).usedFallbackRead = false ∧
    (listen_for_keypress
      { termiosAvailable := false, rawModeOk := true,
        inputGetsLine := true }).raised = some PyError.nameError ∧
    (listen_for_keypress
      { termiosAvailable := false, rawModeOk := true,
        inputGetsLine := true }).stopFlagSet = true ∧
    (listen_for_keypress
      { termiosAvailable := false, rawModeOk := true,
        inputGetsLine := true }).operatorInputReceived = false := by
  decide

/-- C4, amended: the fallback line-based read is reached exactly when the
raw path fails with `termios.error` (termios importable but raw mode
unavailable); when the import itself fails, the `except` clause raises
`NameError` and no fallback read occurs; and in every case — operator
input or not — the `finally` block writes `true` to the stop flag exactly
once, so the flag can transition to true as a consequence of the
listener's own error handling, without any operator input event. -/
theorem claim_C4 (env : ListenerEnv) :
    (env.termiosAvailable = true → env.rawModeOk = false →
      (listen_for_keypress env).usedFallbackRead = true) ∧
    (env.termiosAvailable = false →
      (listen_for_keypress env).usedFallbackRead = false ∧
      (listen_for_keypress env).raised = some PyError.nameError) ∧
    (listen_for_keypress env).flagWrites = [true] ∧
    ((listen_for_keypress env).operatorInputReceived = false →
      (listen_for_keypress env).stopFlagSet = true) := by
  rcases env with ⟨t, rm, il⟩
  cases t <;> cases rm <;> cases il <;> exact ⟨by decide, by decide, by decide, by decide⟩

theorem claim_C4_witness :
    (listen_for_keypress
      { termiosAvailable := true, rawModeOk := false,
        inputGetsLine := true }).usedFallbackRead = true ∧
    (listen_for_keypress
      { termiosAvailable := true, rawModeOk := true,
        inputGetsLine := true }).flagWrites = [true] :=
  ⟨(claim_C4 ⟨true, false, true⟩).1 rfl rfl,
   (claim_C4 ⟨true, true, true⟩).2.2.1⟩

/-- C10, counterexample: the claim says the shared stop flag is accessed
only through an explicit synchronization primitive (mutex-guarded boolean
or atomic flag), never an unsynchronized plain variable.  The source's
`stop_signal` (line 14) is exactly an unsynchronized plain shared
variable: a module-level dict mutated by the listener thread and read by
the loop with no lock, event or atomic anywhere in the file. -/
theorem claim_C10_cex :
    stop_signal_mechanism = SyncMechanism.plainSharedVar ∧
    stop_signal_mechanism ≠ SyncMechanism.mutexGuarded ∧
    stop_signal_mechanism ≠ SyncMechanism.atomicFlag := by
  decide

/-- C10, amended: the shared stop flag is a plain Python dict shared
between the listener thread and the main loop with no explicit
synchronization primitive; it has a single writer — the listener, which
performs exactly one write, of `true` — and a single reader, and its
safety relies on the CPython GIL rather than on a mutex or atomic. -/
theorem claim_C10 :
    stop_signal_mechanism = SyncMechanism.plainSharedVar ∧
    (∀ env : ListenerEnv, (listen_for_keypress env).flagWrites = [true]) := by
  refine ⟨rfl, ?_⟩
  rintro ⟨t, rm, il⟩
  cases t <;> cases rm <;> cases il <;> rfl

theorem claim_C1_witness :
    stressMain (fun k => decide (2 ≤ k))
      (fun _ => InvokeResult.completed 0 "o" "e") 3 =
      some { exitStatus := 0, run_count := 2, has_failed := false,
             events := OutEvent.startBanner :: OutEvent.commandBanner ::
               passEvents 1 2 ++
                 [OutEvent.finishedBanner, OutEvent.allPassed 2] } :=
  claim_C1 2 (fun k => decide (2 ≤ k))
    (fun _ => InvokeResult.completed 0 "o" "e") 3
    (by decide) (by decide) (by decide) (by decide)

theorem claim_C2_witness :
    stressMain (fun _ => false)
      (fun n => if n = 2 then InvokeResult.completed 2 "out2" "assertion failed"
                else InvokeResult.completed 0 "" "") 2 =
      some { exitStatus := 1, run_count := 2, has_failed := true,
             events := OutEvent.startBanner :: OutEvent.commandBanner ::
               (passEvents 1 1 ++ [OutEvent.runHeader 2, OutEvent.failed 2,
                 OutEvent.stdoutDump "out2",
                 OutEvent.stderrDump "assertion failed"]) ++
               [OutEvent.finishedBanner, OutEvent.failureDetected] } :=
  claim_C2 1 (fun _ => false)
    (fun n => if n = 2 then InvokeResult.completed 2 "out2" "assertion failed"
              else InvokeResult.completed 0 "" "") 2 2 "out2" "assertion failed"
    (by decide) (by decide) (by decide) (by decide) (by decide)

theorem claim_C5_witness :
    stressMain (fun _ => false) (fun _ => InvokeResult.fileNotFound) 1 =
      some
        { exitStatus := 1, run_count := 1, has_failed := true,
          events := [OutEvent.startBanner, OutEvent.commandBanner,
            OutEvent.runHeader 1, OutEvent.commandNotFound,
            OutEvent.commandNotFoundHint, OutEvent.finishedBanner,
            OutEvent.failureDetected] } ∧
    (1 : Nat) ≤ 1 ∧
    List.count OutEvent.commandNotFound
      [OutEvent.startBanner, OutEvent.commandBanner,
        OutEvent.runHeader 1, OutEvent.commandNotFound,
        OutEvent.commandNotFoundHint, OutEvent.finishedBanner,
        OutEvent.failureDetected] = 1 ∧
    List.countP isOutputDump
      [OutEvent.startBanner, OutEvent.commandBanner,
        OutEvent.runHeader 1, OutEvent.commandNotFound,
        OutEvent.commandNotFoundHint, OutEvent.finishedBanner,
        OutEvent.failureDetected] = 0 :=
  claim_C5 (fun _ => false) (fun _ => InvokeResult.fileNotFound) 1
    (by decide) rfl rfl

theorem claim_C3_witness :
    ((1 : Nat) = 0 ∨ (1 : Nat) = 1) ∧ ((1 : Nat) = 0 ↔ (true = false)) := by
  have h := claim_C3 (fun _ => false)
    (fun _ => InvokeResult.completed 2 "o" "e") 1
    { exitStatus := 1, run_count := 1, has_failed := true,
      events := [OutEvent.startBanner, OutEvent.commandBanner,
        OutEvent.runHeader 1, OutEvent.failed 2, OutEvent.stdoutDump "o",
        OutEvent.stderrDump "e", OutEvent.finishedBanner,
        OutEvent.failureDetected] } (by decide)
  exact ⟨h.1, h.2.1⟩

theorem claim_C6_witness :
    stressMain (fun k => decide (2 ≤ k ∧ k ≤ 10))
      (fun _ => InvokeResult.completed 0 "" "") 3 =
      some { exitStatus := 0, run_count := 2, has_failed := false,
             events := [OutEvent.startBanner, OutEvent.commandBanner,
               OutEvent.runHeader 1, OutEvent.passed, OutEvent.runHeader 2,
               OutEvent.passed, OutEvent.finishedBanner,
               OutEvent.allPassed 2] } := by
  have h := claim_C6 (fun k => decide (2 ≤ k))
    (fun _ => InvokeResult.completed 0 "" "") 3
    { exitStatus := 0, run_count := 2, has_failed := false,
      events := [OutEvent.startBanner, OutEvent.commandBanner,
        OutEvent.runHeader 1, OutEvent.passed, OutEvent.runHeader 2,
        OutEvent.passed, OutEvent.finishedBanner,
        OutEvent.allPassed 2] } (by decide)
  exact h.2 (fun k => decide (2 ≤ k ∧ k ≤ 10)) (by decide)

theorem claim_C7_witness :
    runHeaders [OutEvent.startBanner, OutEvent.commandBanner,
      OutEvent.runHeader 1, OutEvent.passed, OutEvent.runHeader 2,
      OutEvent.passed, OutEvent.runHeader 3, OutEvent.failed 7,
      OutEvent.stdoutDump "boom", OutEvent.stderrDump "bang",
      OutEvent.finishedBanner, OutEvent.failureDetected] = seqFrom 1 3 ∧
    ((0 : Nat) < 3 ∧
      isPass (InvokeResult.completed 7 "boom" "bang") = false) := by
  have h := claim_C7 (fun _ => false)
    (fun n => if n < 3 then InvokeResult.completed 0 "" ""
              else InvokeResult.completed 7 "boom" "bang") 9
    { exitStatus := 1, run_count := 3, has_failed := true,
      events := [OutEvent.startBanner, OutEvent.commandBanner,
        OutEvent.runHeader 1, OutEvent.passed, OutEvent.runHeader 2,
        OutEvent.passed, OutEvent.runHeader 3, OutEvent.failed 7,
        OutEvent.stdoutDump "boom", OutEvent.stderrDump "bang",
        OutEvent.finishedBanner, OutEvent.failureDetected] } (by decide)
  exact ⟨h.1, h.2.2 rfl⟩

theorem claim_C8_witness :
    flagHistory
      { termiosAvailable := true, rawModeOk := true,
        inputGetsLine := true } = [false, true] ∧
    runHeaders [OutEvent.startBanner, OutEvent.commandBanner,
      OutEvent.runHeader 1, OutEvent.passed, OutEvent.runHeader 2,
      OutEvent.passed, OutEvent.finishedBanner,
      OutEvent.allPassed 2] = seqFrom 1 2 := by
  have h := claim_C8
  exact ⟨h.1 ⟨true, true, true⟩,
    h.2 (fun k => decide (2 ≤ k)) (fun _ => InvokeResult.completed 0 "" "") 3
      { exitStatus := 0, run_count := 2, has_failed := false,
        events := [OutEvent.startBanner, OutEvent.commandBanner,
          OutEvent.runHeader 1, OutEvent.passed, OutEvent.runHeader 2,
          OutEvent.passed, OutEvent.finishedBanner,
          OutEvent.allPassed 2] } (by decide)⟩

theorem claim_C9_witness :
    MainResult.exitStatus
      { exitStatus := 1, run_count := 1, has_failed := true,
        events := [OutEvent.startBanner, OutEvent.commandBanner,
          OutEvent.runHeader 1, OutEvent.failed 5, OutEvent.stdoutDump "x",
          OutEvent.stderrDump "y", OutEvent.finishedBanner,
          OutEvent.failureDetected] } = 1 :=
  claim_C9 (fun k => decide (1 ≤ k)) (fun _ => InvokeResult.completed 5 "x" "y") 1
    { exitStatus := 1, run_count := 1, has_failed := true,
      events := [OutEvent.startBanner, OutEvent.commandBanner,
        OutEvent.runHeader 1, OutEvent.failed 5, OutEvent.stdoutDump "x",
        OutEvent.stderrDump "y", OutEvent.finishedBanner,
        OutEvent.failureDetected] } (by decide) 1 (by decide) (by decide)
    (by decide)
